import Mathlib

/-!
Verification development for the kyoto light-client node core.

The definitions below are a shallow embedding of `src/node/node.rs` and
`src/peers/peer.rs`. The `Chain` component (`src/chain`) and the peer
database are not part of the sources; the node only consumes their results,
so they appear here as explicit oracle values delivered to each handler,
and the few facts needed about them are modelled from the specification
(marked `Modelled from the spec:` at their definition).
-/

deriving instance DecidableEq for Except

namespace Kyoto

/-- NodeState, node.rs lines 34-46. -/
inductive NodeState where
  | Behind
  | HeadersSynced
  | FilterHeadersSynced
  | FiltersSynced
  | TransactionsSynced
deriving DecidableEq, Repr

/-- Position of a state in the forward progression of the sync phases. -/
def stateRank : NodeState → Nat
  | .Behind => 0
  | .HeadersSynced => 1
  | .FilterHeadersSynced => 2
  | .FiltersSynced => 3
  | .TransactionsSynced => 4

/-- View of the Chain component as consumed by node.rs. The chain itself
(`src/chain`) is not among the sources; this records the answers the chain
gives to the predicate and request calls the node makes. Filter-header and
filter request payloads are opaque and represented by `Nat` tokens. -/
structure Chain where
  isSynced : Bool
  isCfHeadersSynced : Bool
  isFiltersSynced : Bool
  blockQueueEmpty : Bool
  locators : List Nat
  nextCfHeaderMessage : Option Nat
  nextFilterMessage : Option Nat
deriving DecidableEq, Repr

/-- Modelled from the spec: the Chain exposes `next_filter_header_request`
and `next_filter_request` and the node handlers request "next
GetFilterHeaders, else next GetFilters" whenever the corresponding phase is
incomplete; so while a phase is not synced the chain has a next request to
hand out. node.rs unwraps these options at its call sites. -/
def chainWfB (c : Chain) : Bool :=
  (c.isCfHeadersSynced || c.nextCfHeaderMessage.isSome) &&
    (c.isFiltersSynced || c.nextFilterMessage.isSome)

/-- GetHeaderConfig, channel messages consumed by node.rs. Block hashes are
represented by `Nat`. -/
structure GetHeaderConfig where
  locators : List Nat
  stopHash : Option Nat
deriving DecidableEq, Repr

/-- GetBlockConfig carrying the requested block hash. -/
structure GetBlockConfig where
  locator : Nat
deriving DecidableEq, Repr

/-- MainThreadMessage: requests the node sends to peer sessions
(the variants node.rs produces). -/
inductive MainThreadMessage where
  | GetAddr
  | GetHeaders (g : GetHeaderConfig)
  | GetFilterHeaders (m : Nat)
  | GetFilters (m : Nat)
  | GetBlock (g : GetBlockConfig)
  | Disconnect
deriving DecidableEq, Repr

/-- Rust panics (`unwrap` on `None`, explicit panic) are modelled as this
error type so that "returns normally" is a provable proposition. -/
inductive Panic where
  | unwrapNone
  | unimplementedNetwork
deriving DecidableEq, Repr

/-- Option::unwrap as used in node.rs: panics on `None`. -/
def unwrapO {α : Type} : Option α → Except Panic α
  | some a => .ok a
  | none => .error .unwrapNone

/-- Whether a fallible computation returned normally. -/
def exceptOk {ε α : Type} : Except ε α → Bool
  | .ok _ => true
  | .error _ => false

/-- Warnings sent through `send_warning`, one constructor per node.rs call
site; error payloads are opaque `Nat` codes. -/
inductive Warning where
  | peerLacksServices
  | dbPeerAdd (e : Nat)
  | headerSyncFailure (e : Nat)
  | cfHeaderSyncFailure (e : Nat)
  | filterSyncFailure (e : Nat)
  | blockScanFailure (e : Nat)
deriving DecidableEq, Repr

/-- HeaderSyncError as matched by node.rs: `EmptyMessage` is distinguished,
every other variant is collapsed into an opaque code. -/
inductive HeaderSyncError where
  | EmptyMessage
  | other (e : Nat)
deriving DecidableEq, Repr

/-- Node::advance_state, node.rs lines 208-249: one predicate check per
state, advancing a single phase when it holds. -/
def advance_state (c : Chain) : NodeState → NodeState
  | .Behind => if c.isSynced then .HeadersSynced else .Behind
  | .HeadersSynced => if c.isCfHeadersSynced then .FilterHeadersSynced else .HeadersSynced
  | .FilterHeadersSynced => if c.isFiltersSynced then .FiltersSynced else .FilterHeadersSynced
  | .FiltersSynced => if c.blockQueueEmpty then .TransactionsSynced else .FiltersSynced
  | .TransactionsSynced => .TransactionsSynced

/-- Chain predicate gating the single forward step out of each state,
read off the match arms of `advance_state`. -/
def advanceGate (c : Chain) : NodeState → Bool
  | .Behind => c.isSynced
  | .HeadersSynced => c.isCfHeadersSynced
  | .FilterHeadersSynced => c.isFiltersSynced
  | .FiltersSynced => c.blockQueueEmpty
  | .TransactionsSynced => false

/-- Node::handle_inventory_blocks, node.rs lines 432-446: while Behind the
event is ignored; otherwise the state reverts to Behind and a GetHeaders
request with the chain locators is produced. -/
def handle_inventory_blocks (c : Chain) (s : NodeState) :
    NodeState × Option MainThreadMessage :=
  match s with
  | .Behind => (.Behind, none)
  | _ => (.Behind, some (.GetHeaders ⟨c.locators, none⟩))

/-- Node::handle_headers, node.rs lines 303-343. The argument `c` is the
chain state after `sync_chain` ran, `syncRes` its result. -/
def handle_headers (c : Chain) (syncRes : Except HeaderSyncError Unit) :
    Except Panic (Option MainThreadMessage × List Warning) :=
  match syncRes with
  | .error HeaderSyncError.EmptyMessage =>
    if !c.isSynced then .ok (some .Disconnect, [])
    else if !c.isCfHeadersSynced then
      match unwrapO c.nextCfHeaderMessage with
      | .error p => .error p
      | .ok m => .ok (some (.GetFilterHeaders m), [])
    else .ok (none, [])
  | .error (HeaderSyncError.other e) =>
    .ok (some .Disconnect, [Warning.headerSyncFailure e])
  | .ok _ =>
    if !c.isSynced then .ok (some (.GetHeaders ⟨c.locators, none⟩), [])
    else if !c.isCfHeadersSynced then
      match unwrapO c.nextCfHeaderMessage with
      | .error p => .error p
      | .ok m => .ok (some (.GetFilterHeaders m), [])
    else if !c.isFiltersSynced then
      match unwrapO c.nextFilterMessage with
      | .error p => .error p
      | .ok m => .ok (some (.GetFilters m), [])
    else .ok (none, [])

/-- Node::handle_cf_headers, node.rs lines 345-373. `syncRes` is the result
of `Chain::sync_cf_headers` (an optional follow-up GetFilterHeaders payload,
or an opaque error code). -/
def handle_cf_headers (c : Chain) (syncRes : Except Nat (Option Nat)) :
    Except Panic (Option MainThreadMessage × List Warning) :=
  match syncRes with
  | .ok (some m) => .ok (some (.GetFilterHeaders m), [])
  | .ok none =>
    if !c.isFiltersSynced then
      match unwrapO c.nextFilterMessage with
      | .error p => .error p
      | .ok m => .ok (some (.GetFilters m), [])
    else .ok (none, [])
  | .error e => .ok (some .Disconnect, [Warning.cfHeaderSyncFailure e])

/-- Node::handle_filter, node.rs lines 375-391. -/
def handle_filter (syncRes : Except Nat (Option Nat)) :
    Option MainThreadMessage × List Warning :=
  match syncRes with
  | .ok (some m) => (some (.GetFilters m), [])
  | .ok none => (none, [])
  | .error e => (some .Disconnect, [Warning.filterSyncFailure e])

/-- Node::handle_block, node.rs lines 393-415. `scan` is the chain's
`scan_block` call on the received block: it yields the mutated chain, or an
error code (in which case the handler only warns). -/
def handle_block (s : NodeState) (c : Chain) (scan : Chain → Except Nat Chain) :
    Option MainThreadMessage × Chain × List Warning :=
  match s with
  | .Behind => (some .Disconnect, c, [])
  | .HeadersSynced => (none, c, [])
  | .FilterHeadersSynced => (none, c, [])
  | .FiltersSynced =>
    match scan c with
    | .ok c2 => (none, c2, [])
    | .error e => (none, c, [Warning.blockScanFailure e])
  | .TransactionsSynced => (none, c, [])

/-- RemoteVersion fields consumed by node.rs: timestamp, service flags
(a bitfield), advertised height. -/
structure RemoteVersion where
  timestamp : Int
  serviceFlags : Nat
  height : Nat
deriving DecidableEq, Repr

/-- ServiceFlags::NETWORK of the bitcoin crate. -/
def serviceNetworkFlag : Nat := 1

/-- ServiceFlags::COMPACT_FILTERS of the bitcoin crate (bit 6). -/
def serviceCompactFiltersFlag : Nat := 64

/-- ServiceFlags::has of the bitcoin crate: all bits of the mask are set. -/
def hasFlag (flags mask : Nat) : Bool := flags.land mask == mask

/-- Tail of Node::handle_version, node.rs lines 277-289: raise the best
known height when the peer advertises at least as much, then request
headers from the chain locators. -/
def versionAccept (best : Nat) (c : Chain) (v : RemoteVersion) :
    MainThreadMessage × Nat × List Warning :=
  (.GetHeaders ⟨c.locators, none⟩,
    if best ≤ v.height then v.height else best, [])

/-- Node::handle_version, node.rs lines 259-290: past Behind, a peer whose
service flags lack COMPACT_FILTERS or NETWORK is warned about and
disconnected; otherwise the version is accepted. Returns the response, the
new best known height, and the warnings sent. -/
def handle_version (s : NodeState) (best : Nat) (c : Chain) (v : RemoteVersion) :
    MainThreadMessage × Nat × List Warning :=
  match s with
  | .Behind => versionAccept best c v
  | _ =>
    if !(hasFlag v.serviceFlags serviceCompactFiltersFlag) ||
        !(hasFlag v.serviceFlags serviceNetworkFlag) then
      (.Disconnect, best, [Warning.peerLacksServices])
    else versionAccept best c v

/-- Modelled from the spec: the PeerMap (src/node/peer_map.rs is not among
the sources) keys each session by nonce and keeps its last-known time
offset and service flags, which `run` records via `set_offset` and
`set_services`. -/
structure PeerInfo where
  offset : Option Int
  services : Option Nat
deriving DecidableEq, Repr

/-- PeerMap::set_offset on the map viewed as a total function. -/
def setOffset (pm : Nat → PeerInfo) (nonce : Nat) (t : Int) : Nat → PeerInfo :=
  fun k => if k = nonce then ⟨some t, (pm k).services⟩ else pm k

/-- PeerMap::set_services on the map viewed as a total function. -/
def setServices (pm : Nat → PeerInfo) (nonce : Nat) (f : Nat) : Nat → PeerInfo :=
  fun k => if k = nonce then ⟨(pm k).offset, some f⟩ else pm k

/-- Recording done by `run` on a Version event, node.rs lines 155-156:
offset first, then services. -/
def recordVersion (pm : Nat → PeerInfo) (nonce : Nat) (v : RemoteVersion) :
    Nat → PeerInfo :=
  setServices (setOffset pm nonce v.timestamp) nonce v.serviceFlags

/-- Routing target of a response in `run`: `send_message` to one session,
or `broadcast` to every connected session. -/
inductive Target where
  | one (nonce : Nat)
  | all
deriving DecidableEq, Repr

/-- Modelled from the spec: PeerMap::broadcast sends a command to every
connected session, so expanding a send list against the connected peers
turns each broadcast into one copy per peer. -/
def expandSends (peers : List Nat) :
    List (Target × MainThreadMessage) → List (Nat × MainThreadMessage)
  | [] => []
  | (Target.one n, m) :: rest => (n, m) :: expandSends peers rest
  | (Target.all, m) :: rest =>
    (peers.map fun p => (p, m)) ++ expandSends peers rest

/-- Results the Chain and the peer database hand back for one peer event:
the chain state after the sync call, the outcomes of the sync calls, the
`scan_block` action and the database insert outcome. -/
structure ChainOracle where
  post : Chain
  syncChainRes : Except HeaderSyncError Unit
  syncCfRes : Except Nat (Option Nat)
  syncFilterRes : Except Nat (Option Nat)
  scanFn : Chain → Except Nat Chain
  dbAddRes : Except Nat Unit

/-- Peer events dispatched by the `run` event loop, node.rs lines 150-204.
Payloads not consulted by the node (address lists, header batches, blocks)
are elided: their effect arrives through the `ChainOracle`. -/
inductive PeerEvent where
  | version (v : RemoteVersion)
  | addr
  | headers
  | filterHeaders
  | filter
  | block
  | newBlocks
  | disconnect
deriving Repr

/-- Outcome of one iteration of the `run` match on a peer event: node state
after the handler, best known height, peer map, routed responses, and
warnings sent. -/
structure RunOut where
  state : NodeState
  best : Nat
  pm : Nat → PeerInfo
  sends : List (Target × MainThreadMessage)
  warns : List Warning

/-- Routing for handlers whose optional response is broadcast. -/
def broadcastOpt : Option MainThreadMessage → List (Target × MainThreadMessage)
  | none => []
  | some m => [(Target.all, m)]

/-- Dispatch of one peer event by `run`, node.rs lines 150-204: Version and
Headers responses go back to the source session, FilterHeaders, Filter,
Block and NewBlocks responses are broadcast, Addr only touches the peer
database, Disconnect only reaps sessions. -/
def runEvent (s : NodeState) (best : Nat) (pm : Nat → PeerInfo)
    (orc : ChainOracle) (nonce : Nat) : PeerEvent → Except Panic RunOut
  | .version v =>
    let r := handle_version s best orc.post v
    .ok ⟨s, r.2.1, recordVersion pm nonce v, [(Target.one nonce, r.1)], r.2.2⟩
  | .addr =>
    match orc.dbAddRes with
    | .ok _ => .ok ⟨s, best, pm, [], []⟩
    | .error e => .ok ⟨s, best, pm, [], [Warning.dbPeerAdd e]⟩
  | .headers =>
    match handle_headers orc.post orc.syncChainRes with
    | .error p => .error p
    | .ok r =>
      .ok ⟨s, best, pm,
        (match r.1 with | some m => [(Target.one nonce, m)] | none => []), r.2⟩
  | .filterHeaders =>
    match handle_cf_headers orc.post orc.syncCfRes with
    | .error p => .error p
    | .ok r => .ok ⟨s, best, pm, broadcastOpt r.1, r.2⟩
  | .filter =>
    let r := handle_filter orc.syncFilterRes
    .ok ⟨s, best, pm, broadcastOpt r.1, r.2⟩
  | .block =>
    let r := handle_block s orc.post orc.scanFn
    .ok ⟨s, best, pm, broadcastOpt r.1, r.2.2⟩
  | .newBlocks =>
    let r := handle_inventory_blocks orc.post s
    .ok ⟨r.1, best, pm, broadcastOpt r.2, []⟩
  | .disconnect => .ok ⟨s, best, pm, [], []⟩

/-- Number of connections Node::new stores, node.rs line 101: the
`_required_peers` argument is ignored and 1 is stored. -/
def nodeNewRequiredPeers (_requested : Nat) : Nat := 1

/-- Node::next_required_peers, node.rs lines 251-257. -/
def next_required_peers (s : NodeState) (requiredPeers : Nat) : Nat :=
  match s with
  | .Behind => 1
  | _ => requiredPeers

/-- Refill check of the `run` loop, node.rs line 133: dispatch a new peer
when fewer sessions are live than required. -/
def needsMorePeers (live : Nat) (s : NodeState) (requiredPeers : Nat) : Bool :=
  decide (live < next_required_peers s requiredPeers)

/-- NodeError variants produced by peer selection in node.rs. -/
inductive NodeErr where
  | peerLoadFailure
  | dnsFailure
deriving DecidableEq, Repr

/-- Results the peer database and DNS hand back during peer selection.
Addresses are `Nat`, ports are `Nat`. Modelled from the spec for the part
outside the sources: `Dns::bootstrap` errors when it cannot produce enough
peers, so a successful bootstrap carries at least one (already shuffled)
address, kept here as a head element plus the rest. -/
structure PeerDbOracle where
  randomCpf : Except Unit (Option (Nat × Nat))
  randomNew : Except Unit (Option (Nat × Nat))
  dnsPeers : Except Unit (Nat × List Nat)
deriving DecidableEq, Repr

/-- Vec::pop: removes and returns the last element. -/
def popLast {α : Type} : List α → Option (α × List α)
  | [] => none
  | a :: rest =>
    match popLast rest with
    | none => some (a, [])
    | some (x, r) => some (x, a :: r)

/-- Node::cpf_peer, node.rs lines 466-476. -/
def cpf_peer (db : PeerDbOracle) : Except NodeErr (Option (Nat × Option Nat)) :=
  match db.randomCpf with
  | .error _ => .error .peerLoadFailure
  | .ok (some p) => .ok (some (p.1, some p.2))
  | .ok none => .ok none

/-- Fallback of Node::any_peer once the whitelist yielded nothing, node.rs
lines 492-528: a random new database peer, else DNS bootstrap (whose
returned address has no port). -/
def anyPeerFallback (wl : Option (List (Nat × Nat))) (db : PeerDbOracle) :
    Except NodeErr ((Nat × Option Nat) × Option (List (Nat × Nat))) :=
  match db.randomNew with
  | .error _ => .error .peerLoadFailure
  | .ok (some p) => .ok ((p.1, some p.2), wl)
  | .ok none =>
    match db.dnsPeers with
    | .error _ => .error .dnsFailure
    | .ok (h, _) => .ok ((h, none), wl)

/-- Node::any_peer, node.rs lines 478-529: pop the whitelist first (the
whitelist is mutated, so the updated whitelist is returned too), then fall
back to the database and DNS. -/
def any_peer (wl : Option (List (Nat × Nat))) (db : PeerDbOracle) :
    Except NodeErr ((Nat × Option Nat) × Option (List (Nat × Nat))) :=
  match wl with
  | some l =>
    match popLast l with
    | some (p, rest) => .ok ((p.1, some p.2), some rest)
    | none => anyPeerFallback (some l) db
  | none => anyPeerFallback none db

/-- Node::next_peer, node.rs lines 451-464: while Behind use `any_peer`;
otherwise try a CPF-signaling database peer first and only fall back to
`any_peer` when none is found. -/
def next_peer (s : NodeState) (wl : Option (List (Nat × Nat)))
    (db : PeerDbOracle) :
    Except NodeErr ((Nat × Option Nat) × Option (List (Nat × Nat))) :=
  match s with
  | .Behind => any_peer wl db
  | _ =>
    match cpf_peer db with
    | .ok (some p) => .ok (p, wl)
    | .ok none => any_peer wl db
    | .error e => .error e

/-- Messages the reader task surfaces to the session, peer.rs PeerMessage.
Payloads that do not steer the session loop are elided. -/
inductive ReaderMsg where
  | version (v : Nat)
  | addr
  | headers
  | disconnect
  | verack
  | ping (n : Nat)
  | pong (n : Nat)
deriving DecidableEq, Repr

/-- Commands the node sends to a session, peer.rs MainThreadMessage. -/
inductive SessionCmd where
  | getAddr
  | getHeaders
  | disconnect
deriving DecidableEq, Repr

/-- Wire messages the session writes to the remote. -/
inductive WireOut where
  | verack
  | pong (n : Nat)
  | getAddrMsg
  | getHeadersMsg
deriving DecidableEq, Repr

/-- One arrival at the session's select loop, peer.rs lines 86-125: either
the reader channel or the node channel fired. -/
inductive SessionIn where
  | fromReader (m : ReaderMsg)
  | fromNode (c : SessionCmd)
deriving DecidableEq, Repr

/-- Effect of one loop iteration: messages forwarded to the node, bytes
written to the remote, and whether the loop returns. -/
structure SessionStepOut where
  toNode : List ReaderMsg
  toWire : List WireOut
  halt : Bool
deriving DecidableEq, Repr

/-- Peer::handle_peer_message, peer.rs lines 128-191: Version, Addr,
Headers and Disconnect are forwarded to the node (Version also answers
Verack, Disconnect ends the loop); Ping is answered locally with Pong;
Verack and Pong are dropped. -/
def handle_peer_message : ReaderMsg → SessionStepOut
  | .version v => ⟨[.version v], [.verack], false⟩
  | .addr => ⟨[.addr], [], false⟩
  | .headers => ⟨[.headers], [], false⟩
  | .disconnect => ⟨[.disconnect], [], true⟩
  | .verack => ⟨[], [], false⟩
  | .ping n => ⟨[], [.pong n], false⟩
  | .pong _ => ⟨[], [], false⟩

/-- Peer::main_thread_request, peer.rs lines 193-216: GetAddr and
GetHeaders are written to the remote; Disconnect ends the loop without
telling the node. -/
def main_thread_request : SessionCmd → SessionStepOut
  | .getAddr => ⟨[], [.getAddrMsg], false⟩
  | .getHeaders => ⟨[], [.getHeadersMsg], false⟩
  | .disconnect => ⟨[], [], true⟩

/-- One iteration of the select loop in Peer::connect. -/
def sessionStep : SessionIn → SessionStepOut
  | .fromReader m => handle_peer_message m
  | .fromNode c => main_thread_request c

/-- Messages a session forwards to the node over a whole timed trace of
arrivals. Each arrival carries a timestamp in milliseconds; the loop in
Peer::connect consults no clock (the `last_message` field of `Peer` is
never read or written), so the timestamps are ignored: the session's
behaviour is a function of the arrival list alone. -/
def sessionToNode : List (Nat × SessionIn) → List ReaderMsg
  | [] => []
  | (_, e) :: rest =>
    let o := sessionStep e
    if o.halt then o.toNode else o.toNode ++ sessionToNode rest

/-- Networks recognized by Peer::new, peer.rs lines 41-47. -/
inductive Net where
  | bitcoin
  | testnet
  | signet
  | regtest
deriving DecidableEq, Repr

/-- Default port computation of Peer::new, peer.rs lines 41-47: Regtest
hits an explicit panic. -/
def default_port : Net → Except Panic Nat
  | .bitcoin => .ok 8333
  | .testnet => .ok 18333
  | .signet => .ok 38333
  | .regtest => .error .unimplementedNetwork

/-- Port stored by Peer::new, peer.rs line 55: the default port is computed
before `unwrap_or`, so Regtest panics even when a port is supplied. -/
def peerNewPort (port : Option Nat) (n : Net) : Except Panic Nat :=
  match default_port n with
  | .error p => .error p
  | .ok d => .ok (port.getD d)

/-- Peer map with no recorded entries, for concrete evaluations. -/
def pmEmpty : Nat → PeerInfo := fun _ => ⟨none, none⟩

/-- Concrete chain state that is behind on every phase and well-formed. -/
def chainA : Chain := ⟨false, false, false, false, [3, 2, 1], some 11, some 12⟩

/-- Concrete oracle delivering an EmptyMessage header-sync result. -/
def orcEmptyMsg : ChainOracle :=
  ⟨chainA, .error HeaderSyncError.EmptyMessage, .ok none, .ok none,
    fun c => .ok c, .ok ()⟩

/-- Concrete oracle whose filter-header sync fails with code 4. -/
def orcCfErr : ChainOracle :=
  ⟨chainA, .ok (), .error 4, .ok none, fun c => .ok c, .ok ()⟩

/-- Concrete peer database with a CPF peer available. -/
def dbCpf : PeerDbOracle := ⟨.ok (some (7, 20)), .ok none, .ok (0, [])⟩

/-- Identity scan action for concrete evaluations. -/
def scanId : Chain → Except Nat Chain := fun c => .ok c

/-- Concrete version message advertising no services. -/
def vBad : RemoteVersion := ⟨100, 0, 50⟩

/-- Helper: a well-formed chain that is not filter-header-synced has a next
filter-header request. -/
theorem chainWf_cf (c : Chain) (h : chainWfB c = true)
    (h2 : c.isCfHeadersSynced = false) : ∃ m, c.nextCfHeaderMessage = some m := by
  have h3 := h
  simp only [chainWfB, h2, Bool.false_or, Bool.and_eq_true] at h3
  exact Option.isSome_iff_exists.mp h3.1

/-- Helper: a well-formed chain that is not filter-synced has a next filter
request. -/
theorem chainWf_filter (c : Chain) (h : chainWfB c = true)
    (h2 : c.isFiltersSynced = false) : ∃ m, c.nextFilterMessage = some m := by
  have h3 := h
  simp only [chainWfB, h2, Bool.false_or, Bool.and_eq_true] at h3
  exact Option.isSome_iff_exists.mp h3.2

/-- Helper: Vec::pop on a list with last element `x` returns `x` and the
remaining prefix. -/
theorem popLast_concat {α : Type} (l : List α) (x : α) :
    popLast (l ++ [x]) = some (x, l) := by
  induction l with
  | nil => rfl
  | cons a t ih => simp [popLast, ih]

/-- Claim C1: `advance_state` moves the node state at most one step forward
along Behind, HeadersSynced, FilterHeadersSynced, FiltersSynced,
TransactionsSynced, and only when the chain predicate gating that state
holds; `handle_inventory_blocks` leaves Behind unchanged with no request,
and from any later state reverts to Behind while producing a GetHeaders
request with the chain locators. -/
theorem claim1_state_forward :
    ∀ (c : Chain) (s : NodeState),
      ((advanceGate c s = false ∧ advance_state c s = s) ∨
        (advanceGate c s = true ∧
          stateRank (advance_state c s) = stateRank s + 1)) ∧
      handle_inventory_blocks c s =
        (NodeState.Behind,
          if s = NodeState.Behind then none
          else some (MainThreadMessage.GetHeaders ⟨c.locators, none⟩)) := by
  intro c s
  refine ⟨?_, ?_⟩
  · cases s
    case Behind =>
      cases h : c.isSynced <;> simp [advanceGate, advance_state, h, stateRank]
    case HeadersSynced =>
      cases h : c.isCfHeadersSynced <;>
        simp [advanceGate, advance_state, h, stateRank]
    case FilterHeadersSynced =>
      cases h : c.isFiltersSynced <;>
        simp [advanceGate, advance_state, h, stateRank]
    case FiltersSynced =>
      cases h : c.blockQueueEmpty <;>
        simp [advanceGate, advance_state, h, stateRank]
    case TransactionsSynced => simp [advanceGate, advance_state]
  · cases s <;> simp [handle_inventory_blocks]

/-- Claim C2: on an EmptyMessage result for a Headers batch, the node
disconnects the source peer when the header chain is not synced, requests
the next filter headers from that peer when headers are synced but filter
headers are not, and stays silent when both are synced. -/
theorem claim2_empty_headers (orc : ChainOracle) (s : NodeState) (best : Nat)
    (pm : Nat → PeerInfo) (nonce : Nat)
    (hwf : chainWfB orc.post = true)
    (hres : orc.syncChainRes = .error HeaderSyncError.EmptyMessage) :
    (orc.post.isSynced = false →
      runEvent s best pm orc nonce .headers =
        .ok ⟨s, best, pm, [(Target.one nonce, MainThreadMessage.Disconnect)],
          []⟩) ∧
    (orc.post.isSynced = true → orc.post.isCfHeadersSynced = false →
      ∃ m, orc.post.nextCfHeaderMessage = some m ∧
        runEvent s best pm orc nonce .headers =
          .ok ⟨s, best, pm,
            [(Target.one nonce, MainThreadMessage.GetFilterHeaders m)], []⟩) ∧
    (orc.post.isSynced = true → orc.post.isCfHeadersSynced = true →
      runEvent s best pm orc nonce .headers = .ok ⟨s, best, pm, [], []⟩) := by
  refine ⟨?_, ?_, ?_⟩
  · intro h1
    simp [runEvent, handle_headers, hres, h1]
  · intro h1 h2
    obtain ⟨m, hm⟩ := chainWf_cf orc.post hwf h2
    exact ⟨m, hm, by simp [runEvent, handle_headers, hres, h1, h2, hm, unwrapO]⟩
  · intro h1 h2
    simp [runEvent, handle_headers, hres, h1, h2]

/-- Claim C2 witness at a concrete unsynced chain. -/
theorem claim2_empty_headers_witness :
    (chainWfB orcEmptyMsg.post = true ∧
      orcEmptyMsg.syncChainRes = .error HeaderSyncError.EmptyMessage ∧
      orcEmptyMsg.post.isSynced = false) ∧
    runEvent NodeState.Behind 0 pmEmpty orcEmptyMsg 5 .headers =
      .ok ⟨NodeState.Behind, 0, pmEmpty,
        [(Target.one 5, MainThreadMessage.Disconnect)], []⟩ :=
  ⟨⟨by decide, rfl, rfl⟩,
    (claim2_empty_headers orcEmptyMsg NodeState.Behind 0 pmEmpty 5 (by decide)
      rfl).1 rfl⟩

/-- Claim C3 counterexample: with three connected peers and a failed
filter-header sync, the run loop broadcasts Disconnect to every peer
(1, 2 and 3), so the peers that supplied the majority value are evicted
together with the minority instead of staying connected. -/
theorem claim3_minority_eviction_cex :
    (runEvent NodeState.HeadersSynced 0 pmEmpty orcCfErr 9
        .filterHeaders).map (fun r => expandSends [1, 2, 3] r.sends) =
      .ok [(1, MainThreadMessage.Disconnect), (2, MainThreadMessage.Disconnect),
        (3, MainThreadMessage.Disconnect)] := rfl

/-- Claim C3 amended: when `sync_cf_headers` returns an error, the node
emits a Warning and broadcasts Disconnect to all connected peers — every
peer receives the eviction, with no distinction between minority and
majority. -/
theorem claim3_cf_error_broadcast (s : NodeState) (best : Nat)
    (pm : Nat → PeerInfo) (orc : ChainOracle) (nonce e : Nat)
    (peers : List Nat) (h : orc.syncCfRes = .error e) :
    runEvent s best pm orc nonce .filterHeaders =
      .ok ⟨s, best, pm, [(Target.all, MainThreadMessage.Disconnect)],
        [Warning.cfHeaderSyncFailure e]⟩ ∧
    expandSends peers [(Target.all, MainThreadMessage.Disconnect)] =
      peers.map fun p => (p, MainThreadMessage.Disconnect) := by
  refine ⟨?_, ?_⟩
  · simp [runEvent, handle_cf_headers, h, broadcastOpt]
  · simp [expandSends]

/-- Claim C3 witness at a concrete failing oracle. -/
theorem claim3_cf_error_broadcast_witness :
    orcCfErr.syncCfRes = .error 4 ∧
    runEvent NodeState.HeadersSynced 0 pmEmpty orcCfErr 9 .filterHeaders =
      .ok ⟨NodeState.HeadersSynced, 0, pmEmpty,
        [(Target.all, MainThreadMessage.Disconnect)],
        [Warning.cfHeaderSyncFailure 4]⟩ :=
  ⟨rfl, (claim3_cf_error_broadcast NodeState.HeadersSynced 0 pmEmpty orcCfErr
    9 4 [] rfl).1⟩

/-- Claim C4: on a Version event the run loop records the peer's time
offset and service flags in the peer map; past Behind a peer lacking
COMPACT_FILTERS or NETWORK is answered with Disconnect and a Warning;
otherwise the response is GetHeaders with the chain's locators and the best
known height is raised to the peer's height when that is greater or
equal. -/
theorem claim4_version_handling (s : NodeState) (best : Nat)
    (pm : Nat → PeerInfo) (orc : ChainOracle) (nonce : Nat)
    (v : RemoteVersion) :
    ((s ≠ NodeState.Behind ∧
        (hasFlag v.serviceFlags serviceCompactFiltersFlag = false ∨
          hasFlag v.serviceFlags serviceNetworkFlag = false)) →
      runEvent s best pm orc nonce (.version v) =
        .ok ⟨s, best, recordVersion pm nonce v,
          [(Target.one nonce, MainThreadMessage.Disconnect)],
          [Warning.peerLacksServices]⟩) ∧
    ((s = NodeState.Behind ∨
        (hasFlag v.serviceFlags serviceCompactFiltersFlag = true ∧
          hasFlag v.serviceFlags serviceNetworkFlag = true)) →
      runEvent s best pm orc nonce (.version v) =
        .ok ⟨s, (if best ≤ v.height then v.height else best),
          recordVersion pm nonce v,
          [(Target.one nonce,
            MainThreadMessage.GetHeaders ⟨orc.post.locators, none⟩)], []⟩) ∧
    recordVersion pm nonce v nonce = ⟨some v.timestamp, some v.serviceFlags⟩ := by
  refine ⟨?_, ?_, ?_⟩
  · rintro ⟨hs, hbad⟩
    cases s
    case Behind => exact absurd rfl hs
    all_goals rcases hbad with h | h <;> simp [runEvent, handle_version, h]
  · rintro (hs | ⟨h1, h2⟩)
    · subst hs
      simp [runEvent, handle_version, versionAccept]
    · cases s <;> simp [runEvent, handle_version, versionAccept, h1, h2]
  · simp [recordVersion, setOffset, setServices]

/-- Claim C4 witness: a peer with no service flags past Behind is
disconnected after its offset and services were recorded. -/
theorem claim4_version_handling_witness :
    (NodeState.HeadersSynced ≠ NodeState.Behind ∧
      hasFlag vBad.serviceFlags serviceCompactFiltersFlag = false) ∧
    runEvent NodeState.HeadersSynced 7 pmEmpty orcEmptyMsg 3 (.version vBad) =
      .ok ⟨NodeState.HeadersSynced, 7, recordVersion pmEmpty 3 vBad,
        [(Target.one 3, MainThreadMessage.Disconnect)],
        [Warning.peerLacksServices]⟩ :=
  ⟨⟨by decide, by decide⟩,
    (claim4_version_handling NodeState.HeadersSynced 7 pmEmpty orcEmptyMsg 3
      vBad).1 ⟨by decide, Or.inl (by decide)⟩⟩

/-- Claim C5 counterexample: past Behind with a non-empty whitelist and a
CPF peer available in the database, `next_peer` returns the database CPF
peer (7, port 20) and leaves the whitelist untouched, not the whitelist
entry (5, port 10). -/
theorem claim5_whitelist_priority_cex :
    next_peer NodeState.HeadersSynced (some [(5, 10)]) dbCpf =
      .ok ((7, some 20), some [(5, 10)]) ∧
    next_peer NodeState.HeadersSynced (some [(5, 10)]) dbCpf ≠
      .ok ((5, some 10), some []) := by
  refine ⟨rfl, ?_⟩
  decide

/-- Claim C5 amended: while Behind, `next_peer` consults the whitelist
first (popping its last entry), then a random new database peer, then DNS
bootstrap; past Behind a random CPF-signaling database peer takes priority
over all of these, and the whitelist is only consulted when no CPF peer is
found. -/
theorem claim5_peer_selection_order :
    (∀ (wl : Option (List (Nat × Nat))) (db : PeerDbOracle),
      next_peer NodeState.Behind wl db = any_peer wl db) ∧
    (∀ (s : NodeState) (wl : Option (List (Nat × Nat))) (db : PeerDbOracle)
        (p : Nat × Nat), s ≠ NodeState.Behind → db.randomCpf = .ok (some p) →
      next_peer s wl db = .ok ((p.1, some p.2), wl)) ∧
    (∀ (s : NodeState) (wl : Option (List (Nat × Nat))) (db : PeerDbOracle),
      s ≠ NodeState.Behind → db.randomCpf = .ok none →
      next_peer s wl db = any_peer wl db) ∧
    (∀ (l : List (Nat × Nat)) (x : Nat × Nat) (db : PeerDbOracle),
      any_peer (some (l ++ [x])) db = .ok ((x.1, some x.2), some l)) ∧
    (∀ (db : PeerDbOracle) (p : Nat × Nat), db.randomNew = .ok (some p) →
      any_peer none db = .ok ((p.1, some p.2), none)) ∧
    (∀ (db : PeerDbOracle) (h : Nat) (rest : List Nat),
      db.randomNew = .ok none → db.dnsPeers = .ok (h, rest) →
      any_peer none db = .ok ((h, none), none)) := by
  refine ⟨fun wl db => rfl, ?_, ?_, ?_, ?_, ?_⟩
  · intro s wl db p hs hcpf
    cases s
    case Behind => exact absurd rfl hs
    all_goals simp [next_peer, cpf_peer, hcpf]
  · intro s wl db hs hcpf
    cases s
    case Behind => exact absurd rfl hs
    all_goals simp [next_peer, cpf_peer, hcpf]
  · intro l x db
    simp [any_peer, popLast_concat]
  · intro db p h
    simp [any_peer, anyPeerFallback, h]
  · intro db h rest h1 h2
    simp [any_peer, anyPeerFallback, h1, h2]

/-- Claim C5 witness: the CPF-priority branch at a concrete database. -/
theorem claim5_peer_selection_order_witness :
    (NodeState.HeadersSynced ≠ NodeState.Behind ∧
      dbCpf.randomCpf = .ok (some (7, 20))) ∧
    next_peer NodeState.HeadersSynced (some [(5, 10)]) dbCpf =
      .ok ((7, some 20), some [(5, 10)]) :=
  ⟨⟨by decide, rfl⟩,
    claim5_peer_selection_order.2.1 NodeState.HeadersSynced (some [(5, 10)])
      dbCpf (7, 20) (by decide) rfl⟩

/-- Claim C6 counterexample: with required_peers configured to 3, the node
stores 1 (Node::new ignores its argument), so past Behind
`next_required_peers` yields 1, not the configured 3. -/
theorem claim6_required_peers_cex :
    next_required_peers NodeState.HeadersSynced (nodeNewRequiredPeers 3) ≠ 3 := by
  decide

/-- Claim C6 amended: `next_required_peers` returns 1 while Behind and the
node's stored requirement otherwise; but `Node::new` ignores the configured
value and always stores 1, so a node built from any configuration requires
one connection in every state, and the run loop's refill check compares the
live count against 1. -/
theorem claim6_required_peers_amended (n live : Nat) (s : NodeState) :
    nodeNewRequiredPeers n = 1 ∧
    next_required_peers NodeState.Behind n = 1 ∧
    (s ≠ NodeState.Behind → next_required_peers s n = n) ∧
    needsMorePeers live s (nodeNewRequiredPeers n) = decide (live < 1) := by
  refine ⟨rfl, rfl, ?_, ?_⟩
  · intro h
    cases s
    case Behind => exact absurd rfl h
    all_goals rfl
  · cases s <;> rfl

/-- Claim C6 witness: state beyond Behind with configured value 3. -/
theorem claim6_required_peers_amended_witness :
    NodeState.FiltersSynced ≠ NodeState.Behind ∧
      next_required_peers NodeState.FiltersSynced 3 = 3 :=
  ⟨by decide,
    (claim6_required_peers_amended 3 0 NodeState.FiltersSynced).2.2.1
      (by decide)⟩

/-- Helper: `handle_headers` returns normally on every sync result when the
chain is well-formed. -/
theorem handle_headers_ok (c : Chain) (r : Except HeaderSyncError Unit)
    (h : chainWfB c = true) : exceptOk (handle_headers c r) = true := by
  cases r with
  | error e =>
    cases e with
    | EmptyMessage =>
      cases hs : c.isSynced with
      | false => simp [handle_headers, hs, exceptOk]
      | true =>
        cases h2 : c.isCfHeadersSynced with
        | false =>
          obtain ⟨m, hm⟩ := chainWf_cf c h h2
          simp [handle_headers, hs, h2, hm, unwrapO, exceptOk]
        | true => simp [handle_headers, hs, h2, exceptOk]
    | other e2 => simp [handle_headers, exceptOk]
  | ok u =>
    cases hs : c.isSynced with
    | false => simp [handle_headers, hs, exceptOk]
    | true =>
      cases h2 : c.isCfHeadersSynced with
      | false =>
        obtain ⟨m, hm⟩ := chainWf_cf c h h2
        simp [handle_headers, hs, h2, hm, unwrapO, exceptOk]
      | true =>
        cases h3 : c.isFiltersSynced with
        | false =>
          obtain ⟨m, hm⟩ := chainWf_filter c h h3
          simp [handle_headers, hs, h2, h3, hm, unwrapO, exceptOk]
        | true => simp [handle_headers, hs, h2, h3, exceptOk]

/-- Helper: `handle_cf_headers` returns normally on every sync result when
the chain is well-formed. -/
theorem handle_cf_headers_ok (c : Chain) (r : Except Nat (Option Nat))
    (h : chainWfB c = true) : exceptOk (handle_cf_headers c r) = true := by
  cases r with
  | error e => simp [handle_cf_headers, exceptOk]
  | ok o =>
    cases o with
    | some m => simp [handle_cf_headers, exceptOk]
    | none =>
      cases h3 : c.isFiltersSynced with
      | false =>
        obtain ⟨m, hm⟩ := chainWf_filter c h h3
        simp [handle_cf_headers, h3, hm, unwrapO, exceptOk]
      | true => simp [handle_cf_headers, h3, exceptOk]

/-- Claim C7: for every peer-deliverable event — Version, Addr, Headers,
FilterHeaders, Filter, Block, NewBlocks, Disconnect — in every node state
and for every well-formed chain answer, the run-loop dispatch returns
normally (a routed response, nothing, or a Warning) instead of hitting an
unwrap panic. -/
theorem claim7_handlers_total (s : NodeState) (best : Nat)
    (pm : Nat → PeerInfo) (orc : ChainOracle) (nonce : Nat) (ev : PeerEvent)
    (hwf : chainWfB orc.post = true) :
    exceptOk (runEvent s best pm orc nonce ev) = true := by
  cases ev with
  | version v => rfl
  | addr =>
    cases ha : orc.dbAddRes with
    | ok u => simp [runEvent, ha, exceptOk]
    | error e => simp [runEvent, ha, exceptOk]
  | headers =>
    have hok := handle_headers_ok orc.post orc.syncChainRes hwf
    cases hh : handle_headers orc.post orc.syncChainRes with
    | error p =>
      rw [hh] at hok
      simp [exceptOk] at hok
    | ok r => simp [runEvent, hh, exceptOk]
  | filterHeaders =>
    have hok := handle_cf_headers_ok orc.post orc.syncCfRes hwf
    cases hh : handle_cf_headers orc.post orc.syncCfRes with
    | error p =>
      rw [hh] at hok
      simp [exceptOk] at hok
    | ok r => simp [runEvent, hh, exceptOk]
  | filter => rfl
  | block => rfl
  | newBlocks => rfl
  | disconnect => rfl

/-- Claim C7 witness at a concrete well-formed chain and a Headers event. -/
theorem claim7_handlers_total_witness :
    chainWfB orcEmptyMsg.post = true ∧
    exceptOk (runEvent NodeState.Behind 0 pmEmpty orcEmptyMsg 1 .headers) =
      true :=
  ⟨by decide,
    claim7_handlers_total NodeState.Behind 0 pmEmpty orcEmptyMsg 1 .headers
      (by decide)⟩

/-- Claim C8 failing-input evaluation: a session whose remote stays silent
from 0 ms to 10000 ms (far beyond the 5-second response timeout) forwards
nothing to the node — in particular no Disconnect. The select loop of
Peer::connect has no timeout branch and never reads a clock, so elapsed
time between arrivals cannot produce any output. -/
theorem claim8_no_idle_disconnect :
    sessionToNode [(0, SessionIn.fromReader (ReaderMsg.ping 7)),
      (10000, SessionIn.fromReader (ReaderMsg.ping 8))] = [] := rfl

/-- Claim C9: `handle_block` invokes the chain's `scan_block` exactly in
state FiltersSynced (elsewhere the result does not depend on the scan
action and the chain is returned unchanged); in Behind the response is
Disconnect, which the run loop broadcasts to every connected peer; in
HeadersSynced, FilterHeadersSynced and TransactionsSynced there is no
response. -/
theorem claim9_block_dispatch :
    (∀ (c : Chain) (scan : Chain → Except Nat Chain),
      handle_block NodeState.Behind c scan =
        (some MainThreadMessage.Disconnect, c, [])) ∧
    (∀ (s : NodeState) (c : Chain) (scan scan2 : Chain → Except Nat Chain),
      s ≠ NodeState.FiltersSynced →
        (handle_block s c scan).2.1 = c ∧
        handle_block s c scan = handle_block s c scan2) ∧
    (∀ (c : Chain) (f : Chain → Chain),
      handle_block NodeState.FiltersSynced c (fun x => .ok (f x)) =
        (none, f c, [])) ∧
    (∀ (c : Chain) (e : Nat),
      handle_block NodeState.FiltersSynced c (fun _ => .error e) =
        (none, c, [Warning.blockScanFailure e])) ∧
    (∀ (best : Nat) (pm : Nat → PeerInfo) (orc : ChainOracle) (nonce : Nat)
        (peers : List Nat),
      runEvent NodeState.Behind best pm orc nonce .block =
        .ok ⟨NodeState.Behind, best, pm,
          [(Target.all, MainThreadMessage.Disconnect)], []⟩ ∧
      expandSends peers [(Target.all, MainThreadMessage.Disconnect)] =
        peers.map fun p => (p, MainThreadMessage.Disconnect)) := by
  refine ⟨fun c scan => rfl, ?_, fun c f => rfl, fun c e => rfl, ?_⟩
  · intro s c scan scan2 h
    cases s
    case FiltersSynced => exact absurd rfl h
    all_goals exact ⟨rfl, rfl⟩
  · intro best pm orc nonce peers
    exact ⟨rfl, by simp [expandSends]⟩

/-- Claim C9 witness: a non-FiltersSynced state leaves the chain
untouched. -/
theorem claim9_block_dispatch_witness :
    NodeState.HeadersSynced ≠ NodeState.FiltersSynced ∧
      (handle_block NodeState.HeadersSynced chainA scanId).2.1 = chainA :=
  ⟨by decide,
    (claim9_block_dispatch.2.1 NodeState.HeadersSynced chainA scanId scanId
      (by decide)).1⟩

/-- Claim C10: Peer::new with no explicit port selects 8333 on Bitcoin
mainnet, 18333 on Testnet and 38333 on Signet, and panics (explicit
"unimplemented" panic) on Regtest although Regtest is a recognized network
configuration. -/
theorem claim10_default_ports :
    peerNewPort none Net.bitcoin = .ok 8333 ∧
    peerNewPort none Net.testnet = .ok 18333 ∧
    peerNewPort none Net.signet = .ok 38333 ∧
    peerNewPort none Net.regtest = .error Panic.unimplementedNetwork := by
  decide

end Kyoto
